import Mathlib

/-!
Shallow embedding of the Zork reference extractors
(`src/reference/extractors/monster_extractor.py`, `item_extractor.py`,
`scene_extractor.py`).  Python strings are modelled as `String` / `List Char`,
Python `int` as `Int`, dictionaries as association lists in insertion order
(Python 3.7+ dicts iterate in insertion order), and absent dictionary keys as
`Option` fields.
-/

namespace ZorkExtractors

/-! ## Block tokenizer (`MonsterExtractorV2.extract_melee_messages`, lines 148-182)

The Python loop scans the melee-table content character by character with an
`in_block` flag and a `current_block` buffer.  A two-character check only
fires while at least two characters remain (`i < len(melee_content) - 1`).
An open marker `![` always starts a new block, flushing a non-empty current
block first; while inside a block, `!]` or `]]` closes it; any other
character is appended.  Outside a block all characters are skipped.  A
trailing unterminated block is flushed at end of input. -/
def splitBlocks : List Char → Bool → List Char → List (List Char) → List (List Char)
  | [], inBlock, currentBlock, blocks =>
      if inBlock ∧ currentBlock ≠ [] then blocks ++ [currentBlock] else blocks
  | [c], inBlock, currentBlock, blocks =>
      -- the two-character marker checks are guarded by `i < len - 1`,
      -- so a lone final character is appended (if in a block) and the
      -- trailing block is flushed
      if inBlock then blocks ++ [currentBlock ++ [c]] else blocks
  | c1 :: c2 :: rest, inBlock, currentBlock, blocks =>
      if c1 = '!' ∧ c2 = '[' then
        splitBlocks rest true []
          (if inBlock ∧ currentBlock ≠ [] then blocks ++ [currentBlock] else blocks)
      else if inBlock then
        if (c1 = '!' ∧ c2 = ']') ∨ (c1 = ']' ∧ c2 = ']') then
          splitBlocks rest false [] (blocks ++ [currentBlock])
        else
          splitBlocks (c2 :: rest) inBlock (currentBlock ++ [c1]) blocks
      else
        splitBlocks (c2 :: rest) inBlock currentBlock blocks

/-- The seven fixed melee categories, in source order
(`monster_extractor.py` line 185). -/
def category_names : List String :=
  ["miss", "unconscious", "kill", "light_wound", "severe_wound", "stagger", "disarm"]

/-- Positional zip of sub-blocks against the fixed category list
(`monster_extractor.py` lines 187-189): every category starts as the empty
list, and category `idx` is overwritten with the extraction of block `idx`
only when such a block exists; blocks past the category count are ignored.
The per-block message extraction (`_extract_message_list`) is passed in as a
parameter, since the zip is independent of it. -/
def meleeMessages (extract : List Char → List String) (blocks : List (List Char)) :
    List (List String) :=
  (List.range category_names.length).map fun idx => (blocks.map extract).getD idx []

/-! ## Item extractor (`item_extractor.py`) -/

/-- Numeric size to size-class conversion (`ItemExtractor.convert_size`,
lines 296-307). -/
def convert_size (numeric_size : Int) : String :=
  if numeric_size ≤ 5 then "TINY"
  else if numeric_size ≤ 10 then "SMALL"
  else if numeric_size ≤ 20 then "MEDIUM"
  else if numeric_size ≤ 40 then "LARGE"
  else "HUGE"

/-- Python `str.lower()` restricted to the ASCII data handled by the
extractors, applied character-wise. -/
def lowerStr (s : String) : String := ⟨s.data.map Char.toLower⟩

/-- Python `str.upper()`, character-wise. -/
def upperStr (s : String) : String := ⟨s.data.map Char.toUpper⟩

/-- `name.lower().replace(' ', '_')` — the item id normalization of
`ItemExtractor.convert_to_item_json` line 249. -/
def pyItemId (s : String) : String :=
  ⟨(s.data.map Char.toLower).map fun c => if c = ' ' then '_' else c⟩

/-- The typed numeric/text properties that `ItemExtractor.parse_objects`
stores in `obj_data['properties']` (lines 79-126); an absent dictionary key
is `none`. -/
structure ObjProps where
  size : Option Int := none
  value : Option Int := none
  treasurePoints : Option Int := none
  capacity : Option Int := none
  lightTimer : Option Int := none
  matchCount : Option Int := none
  readText : Option String := none
deriving DecidableEq, Repr

/-- One parsed object definition (`obj_data` of
`ItemExtractor.parse_objects`). -/
structure ObjData where
  names : List String
  adjectives : List String := []
  description : String := ""
  flags : List String := []
  props : ObjProps := {}
  examineText : Option String := none
deriving DecidableEq, Repr

/-- The legacy-flag-spelling → canonical-tag pairs, in the exact order the
cascades of `parse_objects` test them (lines 133-186 and 189-240; both the
flag-combination branch and the standalone branch use the same spellings in
the same order). -/
def flagPairs : List (String × String) :=
  [("OVISON", "VISIBLE"), ("TAKEBIT", "PORTABLE"), ("LIGHTBIT", "LIGHT_SOURCE"),
   ("CONTBIT", "CONTAINER"), ("OPENBIT", "OPENABLE"), ("WEAPONBIT", "WEAPON"),
   ("TREASUREBIT", "TREASURE"), ("SACREDBIT", "TREASURE"), ("TOOLBIT", "TOOL"),
   ("FOODBIT", "FOOD"), ("DRINKBIT", "DRINK"), ("VEHBIT", "VEHICLE"),
   ("READBIT", "READABLE"), ("BURNBIT", "FLAMMABLE"), ("DOORBIT", "DOOR"),
   ("TURNBIT", "TURNABLE"), ("ONBIT", "SWITCHABLE"), ("FLAMEBIT", "FLAME_SOURCE"),
   ("SEARCHBIT", "SEARCHABLE"), ("VICBIT", "CHARACTER"), ("NDESCBIT", "NO_DESCRIPTION"),
   ("TIEBIT", "TIEABLE"), ("DIGBIT", "DIGGABLE"), ("CLIMBBIT", "CLIMBABLE"),
   ("TRYTAKEBIT", "DANGEROUS"), ("BUNCHBIT", "COLLECTIVE")]

/-- Python's substring test `needle in hay`. -/
def isSubstr (needle hay : List Char) : Bool :=
  needle.isPrefixOf hay ||
    match hay with
    | [] => false
    | _ :: t => isSubstr needle t

/-- Characters of the combo span before the first `>` (the `[^>]*>` part of
the regex `<\+[^>]*>`); `none` when no `>` follows. -/
def takeUntilGt : List Char → Option (List Char)
  | [] => none
  | c :: t => if c = '>' then some [] else (takeUntilGt t).map (c :: ·)

/-- `re.search(r'<\+[^>]*>', line)` (`parse_objects` line 129): the leftmost
span starting with `<+` and running to the first following `>`.  If the
first `<+` has no later `>`, no later start position can have one either,
so the whole search fails. -/
def findCombo : List Char → Option (List Char)
  | '<' :: '+' :: rest =>
      match takeUntilGt rest with
      | some inner => some ('<' :: '+' :: inner ++ ['>'])
      | none => none
  | _ :: t => findCombo t
  | [] => none

/-- Flags appended for a matched flag-combination span: one independent
substring test per legacy spelling, in cascade order (lines 133-186). -/
def comboFlags (flagLine : List Char) : List String :=
  flagPairs.filterMap fun p => if isSubstr p.1.data flagLine then some p.2 else none

/-- Flags appended for a line with no flag-combination span: the standalone
branch is an `elif` chain, so only the first matching spelling contributes
(lines 189-240). -/
def standaloneFlags (line : List Char) : List String :=
  match flagPairs.find? fun p => isSubstr p.1.data line with
  | some p => [p.2]
  | none => []

/-- Flags contributed by one body line (`parse_objects` lines 128-240). -/
def lineFlags (line : List Char) : List String :=
  match findCombo line with
  | some flagLine => comboFlags flagLine
  | none => standaloneFlags line

/-- The flag list accumulated over all body lines (`obj_data['flags']`);
Python appends to a list, so duplicates survive at this stage. -/
def parseFlags (bodyLines : List (List Char)) : List String :=
  (bodyLines.map lineFlags).flatten

/-- `ItemExtractor.determine_item_type` (lines 272-294): the fixed ordered
precedence cascade over the upper-cased flag list and the properties. -/
def determine_item_type (obj : ObjData) : String :=
  let flags := obj.flags.map upperStr
  if obj.props.value.isSome ∧ obj.props.treasurePoints.isSome then "TREASURE"
  else if "FOOD" ∈ flags ∨ "DRINK" ∈ flags then "FOOD"
  else if "WEAPON" ∈ flags then "WEAPON"
  else if "CONTAINER" ∈ flags ∨ "OPENABLE" ∈ flags then "CONTAINER"
  else if "LIGHT_SOURCE" ∈ flags then "LIGHT_SOURCE"
  else if "TOOL" ∈ flags then "TOOL"
  else if "TREASURE" ∈ flags then "TREASURE"
  else "TOOL"

/-- The produced item record (`ItemExtractor.convert_to_item_json`,
lines 247-270).  The constant `initialState` and the generated
`interactions` list are omitted; `properties` is the pass-through of the
parsed properties dictionary (line 265). -/
structure ItemJson where
  id : String
  name : String
  description : String
  examineText : String
  aliases : List String
  type : String
  portable : Bool
  visible : Bool
  weight : Int
  size : String
  tags : List String
  properties : ObjProps
  initialLocation : String
deriving DecidableEq, Repr

/-- `ItemExtractor.convert_to_item_json` (lines 247-270).  Python's
`list(set(...))` for `tags` yields each element exactly once in an
unspecified order; `List.dedup` is one such representative.  `names[0]` is
modelled as `headD ""` (callers only pass objects with non-empty name
lists). -/
def convert_to_item_json (obj : ObjData) : ItemJson :=
  let primary_name := pyItemId (obj.names.headD "")
  let descOrName :=
    if obj.description ≠ "" then lowerStr obj.description else obj.names.headD ""
  { id := primary_name,
    name := if obj.description ≠ "" then obj.description else obj.names.headD "",
    description := "You see " ++ descOrName ++ ".",
    examineText := obj.examineText.getD ("It's " ++ descOrName ++ "."),
    aliases := obj.names.drop 1 ++ obj.adjectives,
    type := determine_item_type obj,
    portable := obj.flags.contains "PORTABLE",
    visible := obj.flags.contains "VISIBLE",
    weight := obj.props.size.getD 5,
    size := convert_size (obj.props.size.getD 5),
    tags := (obj.flags.map lowerStr).dedup,
    properties := obj.props,
    initialLocation := "unknown" }

/-- Python dict assignment `d[k] = v`: overwrite in place when the key
exists, else append the new binding. -/
def dictInsert {α : Type} (d : List (String × α)) (k : String) (v : α) :
    List (String × α) :=
  if k ∈ d.map (·.1) then
    d.map fun p => if p.1 = k then (k, v) else p
  else
    d ++ [(k, v)]

/-- One iteration of the output-map building loop of
`ItemExtractor.extract_items` (lines 415-423): objects with an empty name
list are skipped, every other object is converted and stored in
`item_files` under the key `<id>.json`. -/
def itemStep (files : List (String × ItemJson)) (obj : ObjData) :
    List (String × ItemJson) :=
  if obj.names = [] then files
  else
    let item_data := convert_to_item_json obj
    dictInsert files (item_data.id ++ ".json") item_data

/-- The output map built by `ItemExtractor.extract_items` (lines 412-424). -/
def extract_items (objs : List ObjData) : List (String × ItemJson) :=
  objs.foldl itemStep []

/-! ## Scene extractor (`scene_extractor.py`) -/

/-- Python `str.replace(pat, rep)` for a non-empty pattern: left-to-right,
non-overlapping.  (For an empty pattern this returns the input unchanged;
all call sites use non-empty patterns.) -/
def replaceAll (pat rep : List Char) : List Char → List Char
  | [] => []
  | c :: t =>
      if h : pat ≠ [] ∧ pat.isPrefixOf (c :: t) then
        rep ++ replaceAll pat rep (t.drop (pat.length - 1))
      else
        c :: replaceAll pat rep t
termination_by l => l.length
decreasing_by
  · have : 1 ≤ pat.length := by
      cases pat with
      | nil => exact absurd rfl h.1
      | cons p ps => simp
    simp only [List.length_drop, List.length_cons]
    omega
  · simp

/-- Python `s.replace(pat, rep)` on strings. -/
def pyReplace (s pat rep : String) : String := ⟨replaceAll pat.data rep.data s.data⟩

/-- Python `s.startswith(pre)`. -/
def pyStartsWith (s pre : String) : Bool := pre.data.isPrefixOf s.data

/-- `key.lower().replace(' ', '_').replace('-', '_')` — the generic fallback
id derivation of `SceneExtractor.convert_key_to_id` line 132. -/
def pyLowerSnake (s : String) : String :=
  ⟨(s.data.map Char.toLower).map fun c => if c = ' ' ∨ c = '-' then '_' else c⟩

/-- `flag.lower().replace('-', '_')` — the condition-name derivation of
`SceneExtractor.check_conditional_exit` line 376. -/
def pyFlagCondition (s : String) : String :=
  ⟨(s.data.map Char.toLower).map fun c => if c = '-' then '_' else c⟩

/-- `SceneExtractor.room_id_conversions` (lines 25-66), in source order. -/
def room_id_conversions : List (String × String) :=
  [("WHOUS", "west_of_house"), ("NHOUS", "north_of_house"), ("SHOUS", "south_of_house"),
   ("EHOUS", "behind_house"), ("LROOM", "living_room"), ("KITCH", "kitchen"),
   ("ATTIC", "attic"), ("CELLA", "cellar"), ("TWELL", "treasure_well"),
   ("FORE1", "forest_1"), ("FORE2", "forest_2"), ("FORE3", "forest_3"),
   ("FORE4", "forest_4"), ("PATH", "forest_path"), ("CLEAR", "clearing"),
   ("BEACH", "beach"), ("RESER", "reservoir"), ("DAM", "dam"),
   ("EGYPT", "egyptian_room"), ("SANDY", "sandy_beach"), ("ROCKY", "rocky_ledge"),
   ("OROOM", "round_room"), ("CAROU", "carousel_room"), ("MTROL", "troll_room"),
   ("TREAS", "treasure_room"), ("WINDM", "windmill"), ("MGRAT", "grating_room"),
   ("MTREE", "up_tree"), ("FALLS", "top_of_falls"), ("MTOP", "mountain_top"),
   ("DOME", "temple_dome"), ("TORCH", "torch_room"), ("TEMP", "temple"),
   ("ALTAR", "altar"), ("VOLCA", "volcano"), ("HBARR", "barrow"),
   ("NCELL", "cell"), ("NIRVA", "treasury_of_zork"), ("CYCLO", "cyclops_room"),
   ("BLROO", "strange_passage")]

/-- `SceneExtractor.direction_mapping` (lines 90-103). -/
def direction_mapping : List (String × String) :=
  [("NORTH", "north"), ("SOUTH", "south"), ("EAST", "east"), ("WEST", "west"),
   ("UP", "up"), ("DOWN", "down"), ("ENTER", "in"), ("EXIT", "out"),
   ("NORTHEAST", "northeast"), ("NORTHWEST", "northwest"),
   ("SOUTHEAST", "southeast"), ("SOUTHWEST", "southwest")]

/-- `SceneExtractor.convert_key_to_id` (lines 119-132). -/
def convert_key_to_id (key : String) : String :=
  if pyStartsWith key "MAZE" || pyStartsWith key "MAZ" then
    "maze_" ++ pyReplace (pyReplace key "MAZE" "") "MAZ" ""
  else if pyStartsWith key "DEAD" then
    "dead_end_" ++ pyReplace key "DEAD" ""
  else
    match room_id_conversions.find? (·.1 = key) with
    | some p => p.2
    | none => pyLowerSnake key

/-- `SceneExtractor.convert_direction` (lines 150-152). -/
def convert_direction (direction : String) : String :=
  match direction_mapping.find? (·.1 = direction) with
  | some p => p.2
  | none => lowerStr direction

/-- One entry of the `conditional_exits` dictionary
(`SceneExtractor.parse_conditional_exits`, lines 154-190).  CEXIT entries
carry a destination and the flag as condition; NEXIT entries (keyed
`NEXIT_<direction>`) carry no destination and are marked blocked. -/
structure CExitEntry where
  destination : Option String := none
  failureMessage : String
  condition : Option String := none
  blocked : Bool := false
  direction : Option String := none
deriving DecidableEq, Repr

/-- One entry of the `door_objects` dictionary
(`SceneExtractor.parse_door_objects`, lines 192-247). `connects` is present
only when a DOOR macro declared the room pair; `keyId` is never set by the
parser, so `door_data.get('keyId')` is always `none`. -/
structure DoorData where
  names : List String := []
  description : String := ""
  openable : Bool := true
  locked : Bool := false
  connects : Option (String × String) := none
  failureMessage : Option String := none
  keyId : Option String := none
deriving DecidableEq, Repr

/-- `source in rooms and target in rooms` for a door's two-element
connection list (`check_conditional_exit` lines 359-361). -/
def doorMatches (source target : String) (d : DoorData) : Bool :=
  match d.connects with
  | some (r1, r2) => (source = r1 ∨ source = r2) ∧ (target = r1 ∨ target = r2)
  | none => false

/-- The conditional-exit record returned by `check_conditional_exit`
(lines 362-378).  The door branch fills every field; the CEXIT branch
leaves `description`, `locked` and `keyId` absent. -/
structure CondExit where
  «to» : String
  description : Option String := none
  condition : String
  locked : Option Bool := none
  keyId : Option String := none
  failureMessage : String
deriving DecidableEq, Repr

/-- `SceneExtractor.check_conditional_exit` (lines 355-380): scan the door
table in iteration order and return on the first door whose connection pair
contains both rooms; otherwise scan the CEXIT table for the first entry
whose destination matches the target; otherwise `None`. -/
def check_conditional_exit (doors : List (String × DoorData))
    (cexits : List (String × CExitEntry)) (source direction target : String) :
    Option CondExit :=
  match doors.find? fun p => doorMatches source target p.2 with
  | some (door_name, door_data) =>
      some { «to» := convert_key_to_id target,
             description := some ("You see " ++ door_data.description ++ " " ++ direction ++ "."),
             condition := "door_" ++ door_name ++ "_open",
             locked := some door_data.locked,
             keyId := door_data.keyId,
             failureMessage := door_data.failureMessage.getD ("The " ++ door_name ++ " is closed.") }
  | none =>
      match cexits.find? fun p => p.2.destination = some target with
      | some (flag, exit_data) =>
          some { «to» := convert_key_to_id target,
                 condition := pyFlagCondition flag,
                 failureMessage := exit_data.failureMessage }
      | none => none

/-- The hard-coded room/direction fallback messages of
`SceneExtractor.get_blocked_exit_message` (lines 390-402). -/
def blocked_messages : List (String × List (String × String)) :=
  [("WHOUS", [("east", "The front door is boarded and you can't remove the boards.")]),
   ("NHOUS", [("south", "The windows are all barred."), ("north", "You can't go that way.")]),
   ("SHOUS", [("north", "The windows are all barred."), ("south", "You can't go that way.")])]

/-- `source in blocked_messages and direction in blocked_messages[source]`
(lines 404-405). -/
def lookupBlockedMessage (source direction : String) : Option String :=
  match blocked_messages.find? (·.1 = source) with
  | some p => (p.2.find? (·.1 = direction)).map (·.2)
  | none => none

/-- `SceneExtractor.get_blocked_exit_message` (lines 382-407): the declared
NEXIT message for the direction, else the room/direction fallback, else the
generic message. -/
def get_blocked_exit_message (cexits : List (String × CExitEntry))
    (source direction : String) : String :=
  match cexits.find? (·.1 = "NEXIT_" ++ upperStr direction) with
  | some p => p.2.failureMessage
  | none =>
      match lookupBlockedMessage source direction with
      | some m => m
      | none => "You can't go " ++ direction ++ " from here."

/-- The three shapes `build_exits` stores per direction: the blocked dict
(`to` explicitly `None`, lines 338-342), a conditional-exit dict, or a plain
normalized id string. -/
inductive ExitResult where
  | blocked («to» : Option String) (failureMessage : String)
  | conditional (e : CondExit)
  | plain («to» : String)
deriving DecidableEq, Repr

/-- The per-exit resolution of `SceneExtractor.build_exits` (lines 328-351):
convert the direction, short-circuit the `NoExit` sentinel to a blocked
record, else try the conditional resolver, else emit the plain normalized
id. -/
def resolveExit (doors : List (String × DoorData))
    (cexits : List (String × CExitEntry)) (source rawDir target : String) :
    ExitResult :=
  let direction := convert_direction rawDir
  if target = "NoExit" then
    ExitResult.blocked none (get_blocked_exit_message cexits source direction)
  else
    match check_conditional_exit doors cexits source direction target with
    | some e => ExitResult.conditional e
    | none => ExitResult.plain (convert_key_to_id target)

/-! ## Theorems -/

/-- Claim C6: the numeric-size-to-size-class conversion has exact integer
thresholds: size 5 maps to TINY, 6 to SMALL, 40 to LARGE and 41 to HUGE. -/
theorem convert_size_boundaries :
    convert_size 5 = "TINY" ∧ convert_size 6 = "SMALL" ∧
    convert_size 40 = "LARGE" ∧ convert_size 41 = "HUGE" := by
  decide

/-- Claim C5: the item classifier is a pure function of the resolved
attribute set evaluated by the fixed precedence cascade of
`determine_item_type`; whenever neither the treasure-by-value-pair rule nor
the food/drink rule applies and the flag set contains WEAPON (in particular
when it contains both WEAPON and CONTAINER), the assigned category is
WEAPON — the weapon rule precedes the container rule. -/
theorem determine_item_type_weapon (obj : ObjData)
    (hval : ¬(obj.props.value.isSome ∧ obj.props.treasurePoints.isSome))
    (hfood : "FOOD" ∉ obj.flags.map upperStr)
    (hdrink : "DRINK" ∉ obj.flags.map upperStr)
    (hweapon : "WEAPON" ∈ obj.flags.map upperStr) :
    determine_item_type obj = "WEAPON" := by
  simp only [determine_item_type]
  rw [if_neg hval, if_neg (by tauto), if_pos hweapon]

/-- Concrete instance for `determine_item_type_weapon`: flags
`WEAPON, CONTAINER` and no value/treasure-point properties classify as
WEAPON. -/
theorem determine_item_type_weapon_witness :
    determine_item_type { names := ["knife"], flags := ["WEAPON", "CONTAINER"] } =
      "WEAPON" :=
  determine_item_type_weapon { names := ["knife"], flags := ["WEAPON", "CONTAINER"] }
    (by decide) (by decide) (by decide) (by decide)

/-- Claim C10 (counterexample): an object with no parsed OSIZE property and
the same object with an explicit size 5 produce *different* item records —
the pass-through `properties` field still records whether a size was
parsed — so a missing size is not indistinguishable from an explicit size
of 5, even though `weight` and `size` agree. -/
theorem osize_counterexample :
    convert_to_item_json { names := ["thing"] } ≠
      convert_to_item_json { names := ["thing"], props := { size := some 5 } } ∧
    (convert_to_item_json { names := ["thing"] }).weight =
      (convert_to_item_json { names := ["thing"], props := { size := some 5 } }).weight ∧
    (convert_to_item_json { names := ["thing"] }).size =
      (convert_to_item_json { names := ["thing"], props := { size := some 5 } }).size := by
  decide

/-- Claim C10 (amended): for every object definition with no parseable
OSIZE property, the produced item record gets the default numeric weight 5
and size class TINY, and its `weight` and `size` fields equal those produced
for an explicit size of 5 (the pass-through `properties` field is what still
distinguishes the two). -/
theorem osize_default_tiny (obj : ObjData) :
    (convert_to_item_json { obj with props := { obj.props with size := none } }).weight = 5 ∧
    (convert_to_item_json { obj with props := { obj.props with size := none } }).size = "TINY" ∧
    (convert_to_item_json { obj with props := { obj.props with size := none } }).weight =
      (convert_to_item_json { obj with props := { obj.props with size := some 5 } }).weight ∧
    (convert_to_item_json { obj with props := { obj.props with size := none } }).size =
      (convert_to_item_json { obj with props := { obj.props with size := some 5 } }).size :=
  ⟨rfl, rfl, rfl, rfl⟩

/-- Claim C4: when the same legacy flag token contributes its canonical tag
through a flag-combination span on one body line and through the standalone
branch of another line, the `tags` set of the produced record contains the
lower-cased canonical tag exactly once — duplicate contributions are
deduplicated by the `list(set(...))` step of `convert_to_item_json`. -/
theorem flag_idempotence (bodyLines : List (List Char)) (obj : ObjData)
    (l1 l2 flagLine : List Char) (canon : String)
    (hobj : obj.flags = parseFlags bodyLines)
    (hl1 : l1 ∈ bodyLines) (hcombo : findCombo l1 = some flagLine)
    (hcanon : canon ∈ comboFlags flagLine)
    (hl2 : l2 ∈ bodyLines) (hsolo : findCombo l2 = none)
    (hmem2 : canon ∈ standaloneFlags l2) :
    (convert_to_item_json obj).tags.count (lowerStr canon) = 1 := by
  have hmem : canon ∈ parseFlags bodyLines := by
    unfold parseFlags
    rw [List.mem_flatten]
    refine ⟨lineFlags l1, List.mem_map_of_mem _ hl1, ?_⟩
    simp only [lineFlags, hcombo]
    exact hcanon
  have hmem' : lowerStr canon ∈ obj.flags.map lowerStr := by
    rw [hobj]
    exact List.mem_map_of_mem _ hmem
  have htags : (convert_to_item_json obj).tags = (obj.flags.map lowerStr).dedup := rfl
  rw [htags]
  exact List.count_eq_one_of_mem (List.nodup_dedup _) (List.mem_dedup.mpr hmem')

/-- Concrete instance for `flag_idempotence`: WEAPONBIT appears in the
combination span `<+ ,OVISON ,WEAPONBIT>` of one line and standalone on
another, and the tag `weapon` ends up in the record exactly once. -/
theorem flag_idempotence_witness :
    (convert_to_item_json
      { names := ["knife"],
        flags := parseFlags ["<+ ,OVISON ,WEAPONBIT>".toList, "WEAPONBIT".toList] }).tags.count
        (lowerStr "WEAPON") = 1 :=
  flag_idempotence ["<+ ,OVISON ,WEAPONBIT>".toList, "WEAPONBIT".toList]
    { names := ["knife"],
      flags := parseFlags ["<+ ,OVISON ,WEAPONBIT>".toList, "WEAPONBIT".toList] }
    "<+ ,OVISON ,WEAPONBIT>".toList "WEAPONBIT".toList "<+ ,OVISON ,WEAPONBIT>".toList
    "WEAPON" rfl (by decide) (by decide) (by decide) (by decide) (by decide) (by decide)

/-- Claim C7: an exit whose raw target is the `NoExit` sentinel always
resolves to a blocked record with `to = None`, and the attached failure
message follows the fallback chain — the declared NEXIT message for the
direction when one exists, else the room/direction-specific fallback, else
the generic "you can't go that way" message. -/
theorem noexit_blocked (doors : List (String × DoorData))
    (cexits : List (String × CExitEntry)) (source rawDir : String) :
    resolveExit doors cexits source rawDir "NoExit" =
      ExitResult.blocked none
        (get_blocked_exit_message cexits source (convert_direction rawDir)) ∧
    get_blocked_exit_message cexits source (convert_direction rawDir) =
      (match cexits.find? (·.1 = "NEXIT_" ++ upperStr (convert_direction rawDir)) with
       | some p => p.2.failureMessage
       | none =>
          (lookupBlockedMessage source (convert_direction rawDir)).getD
            ("You can't go " ++ convert_direction rawDir ++ " from here.")) := by
  constructor
  · rfl
  · unfold get_blocked_exit_message
    cases cexits.find? (·.1 = "NEXIT_" ++ upperStr (convert_direction rawDir)) with
    | some p => rfl
    | none =>
        cases lookupBlockedMessage source (convert_direction rawDir) with
        | some m => rfl
        | none => rfl

/-- Claim C8: when the door table's first structural match for the
source/target pair is the door `door_name`, the conditional resolver yields
a CONDITIONAL record carrying the normalized target id and the condition
name `door_<name>_open`; the door scan precedes the CEXIT scan, so the
result is independent of the CEXIT table. -/
theorem door_conditional_exit (doors : List (String × DoorData))
    (cexits : List (String × CExitEntry)) (source direction target : String)
    (door_name : String) (door_data : DoorData)
    (hfind : (doors.find? fun p => doorMatches source target p.2) =
      some (door_name, door_data)) :
    check_conditional_exit doors cexits source direction target =
      some { «to» := convert_key_to_id target,
             description := some ("You see " ++ door_data.description ++ " " ++ direction ++ "."),
             condition := "door_" ++ door_name ++ "_open",
             locked := some door_data.locked,
             keyId := door_data.keyId,
             failureMessage :=
               door_data.failureMessage.getD ("The " ++ door_name ++ " is closed.") } := by
  unfold check_conditional_exit
  rw [hfind]

/-- Concrete instance for `door_conditional_exit`: a door declared between
`ROOMA` and `ROOMB` makes the `ROOMA → ROOMB` exit conditional on
`door_adoor_open`. -/
theorem door_conditional_exit_witness :
    check_conditional_exit
        [("adoor", { names := ["adoor"], description := "a door",
                     connects := some ("ROOMA", "ROOMB") })] [] "ROOMA" "north" "ROOMB" =
      some { «to» := "roomb", description := some "You see a door north.",
             condition := "door_adoor_open", locked := some false, keyId := none,
             failureMessage := "The adoor is closed." } :=
  door_conditional_exit
    [("adoor", { names := ["adoor"], description := "a door",
                 connects := some ("ROOMA", "ROOMB") })] [] "ROOMA" "north" "ROOMB"
    "adoor" { names := ["adoor"], description := "a door",
              connects := some ("ROOMA", "ROOMB") } (by decide)

/-- Claim C2 (counterexample): with two declared doors whose connection
pairs both contain `ROOMA` and `ROOMB`, the resolver does not surface any
ambiguity — it silently returns a conditional exit built from whichever
matching door comes first in table iteration order, so the result depends
on that order. -/
theorem door_ambiguity_counterexample :
    (check_conditional_exit
        [("adoor", { connects := some ("ROOMA", "ROOMB") }),
         ("bdoor", { connects := some ("ROOMA", "ROOMB") })] [] "ROOMA" "north" "ROOMB").map
        (·.condition) = some "door_adoor_open" ∧
    (check_conditional_exit
        [("bdoor", { connects := some ("ROOMA", "ROOMB") }),
         ("adoor", { connects := some ("ROOMA", "ROOMB") })] [] "ROOMA" "north" "ROOMB").map
        (·.condition) = some "door_bdoor_open" := by
  decide

/-- Claim C2 (amended): when several doors' connection pairs contain both
endpoints, `check_conditional_exit` silently resolves to the first matching
door in table iteration order — here both the first and the second door
match, and the first one's record is returned regardless of the rest of the
table and of the CEXIT table. -/
theorem door_first_match_wins (cexits : List (String × CExitEntry))
    (source direction target n1 n2 : String) (d1 d2 : DoorData)
    (rest : List (String × DoorData))
    (h1 : doorMatches source target d1 = true)
    (h2 : doorMatches source target d2 = true) :
    check_conditional_exit ((n1, d1) :: (n2, d2) :: rest) cexits source direction target =
      some { «to» := convert_key_to_id target,
             description := some ("You see " ++ d1.description ++ " " ++ direction ++ "."),
             condition := "door_" ++ n1 ++ "_open",
             locked := some d1.locked,
             keyId := d1.keyId,
             failureMessage := d1.failureMessage.getD ("The " ++ n1 ++ " is closed.") } := by
  unfold check_conditional_exit
  rw [List.find?_cons_of_pos _ (by simpa using h1)]

/-- Concrete instance for `door_first_match_wins`: two doors both declared
between `ROOMA` and `ROOMB`; the first one in the table decides the
condition name. -/
theorem door_first_match_wins_witness :
    check_conditional_exit
        [("adoor", { connects := some ("ROOMA", "ROOMB") }),
         ("bdoor", { connects := some ("ROOMA", "ROOMB") })] [] "ROOMA" "north" "ROOMB" =
      some { «to» := convert_key_to_id "ROOMB",
             description := some ("You see " ++ (DoorData.description
               { connects := some ("ROOMA", "ROOMB") }) ++ " " ++ "north" ++ "."),
             condition := "door_" ++ "adoor" ++ "_open",
             locked := some (DoorData.locked { connects := some ("ROOMA", "ROOMB") }),
             keyId := DoorData.keyId { connects := some ("ROOMA", "ROOMB") },
             failureMessage := (DoorData.failureMessage
               { connects := some ("ROOMA", "ROOMB") }).getD
                 ("The " ++ "adoor" ++ " is closed.") } :=
  door_first_match_wins [] "ROOMA" "north" "ROOMB" "adoor" "bdoor"
    { connects := some ("ROOMA", "ROOMB") } { connects := some ("ROOMA", "ROOMB") } []
    (by decide) (by decide)

/-- A `dictInsert` never introduces a duplicate key: overwriting keeps the
key list unchanged, appending adds a key that was absent. -/
lemma dictInsert_keys_nodup {α : Type} (d : List (String × α)) (k : String) (v : α)
    (h : (d.map (·.1)).Nodup) : ((dictInsert d k v).map (·.1)).Nodup := by
  unfold dictInsert
  by_cases hk : k ∈ d.map (·.1)
  · rw [if_pos hk]
    have hkeys : ((d.map fun p => if p.1 = k then (k, v) else p).map (·.1)) = d.map (·.1) := by
      rw [List.map_map]
      apply List.map_congr_left
      intro p _
      by_cases hp : p.1 = k
      · simp [hp]
      · simp [hp]
    rw [hkeys]
    exact h
  · rw [if_neg hk, List.map_append]
    refine List.Nodup.append h (List.nodup_singleton k) ?_
    intro a ha hb
    simp only [List.map_cons, List.map_nil, List.mem_singleton] at hb
    subst hb
    exact hk ha

/-- Every value stored by `dictInsert` is either an old value or the newly
inserted one. -/
lemma dictInsert_values {α : Type} (d : List (String × α)) (k : String) (v : α)
    (P : String × α → Prop) (hd : ∀ p ∈ d, P p) (hv : P (k, v)) :
    ∀ p ∈ dictInsert d k v, P p := by
  unfold dictInsert
  by_cases hk : k ∈ d.map (·.1)
  · rw [if_pos hk]
    intro p hp
    rw [List.mem_map] at hp
    obtain ⟨q, hq, rfl⟩ := hp
    by_cases h : q.1 = k
    · simpa [h] using hv
    · simpa [h] using hd q hq
  · rw [if_neg hk]
    intro p hp
    rcases List.mem_append.mp hp with h | h
    · exact hd p h
    · rw [List.mem_singleton] at h
      subst h
      exact hv

/-- A character-wise mapped string is empty only when the input was. -/
lemma pyItemId_ne_empty (s : String) (h : s ≠ "") : pyItemId s ≠ "" := by
  intro hcontra
  apply h
  have hdata : (pyItemId s).data = [] := congrArg String.data hcontra
  simp only [pyItemId, List.map_eq_nil_iff] at hdata
  exact congrArg String.mk hdata

/-- Invariant of the `extract_items` fold: the key list stays duplicate-free
and every stored record keeps a non-empty id. -/
lemma extract_items_invariant :
    ∀ (objs : List ObjData) (files : List (String × ItemJson)),
      (∀ o ∈ objs, ∀ n ∈ o.names, n ≠ "") →
      (files.map (·.1)).Nodup → (∀ p ∈ files, p.2.id ≠ "") →
      (((objs.foldl itemStep files).map (·.1)).Nodup ∧
        ∀ p ∈ objs.foldl itemStep files, p.2.id ≠ "") := by
  intro objs
  induction objs with
  | nil => intro files _ h1 h2; exact ⟨h1, h2⟩
  | cons o os ih =>
    intro files hn h1 h2
    rw [List.foldl_cons]
    refine ih (itemStep files o) (fun x hx => hn x (List.mem_cons_of_mem o hx)) ?_ ?_
    · unfold itemStep
      by_cases he : o.names = []
      · rwa [if_pos he]
      · rw [if_neg he]
        exact dictInsert_keys_nodup _ _ _ h1
    · unfold itemStep
      by_cases he : o.names = []
      · rwa [if_pos he]
      · rw [if_neg he]
        refine dictInsert_values _ _ _ _ h2 ?_
        show (convert_to_item_json o).id ≠ ""
        have hhead : o.names.headD "" ∈ o.names := by
          cases hcase : o.names with
          | nil => exact absurd hcase he
          | cons a t => simp [hcase]
        exact pyItemId_ne_empty _ (hn o (List.mem_cons_self o os) _ hhead)

/-- Claim C3 (amended): the keys of the output map built by `extract_items`
are pairwise distinct, and every stored record keeps a non-empty id when
every parsed name is non-empty; however, two distinct legacy keys
normalizing to the same id are silently merged — the later record
overwrites the earlier one without any reported inconsistency (see the
counterexample). -/
theorem item_ids_unique (objs : List ObjData)
    (hn : ∀ o ∈ objs, ∀ n ∈ o.names, n ≠ "") :
    ((extract_items objs).map (·.1)).Nodup ∧
    ∀ p ∈ extract_items objs, p.2.id ≠ "" := by
  unfold extract_items
  exact extract_items_invariant objs [] hn (by simp) (by simp)

/-- Concrete instance for `item_ids_unique`. -/
theorem item_ids_unique_witness :
    ((extract_items [{ names := ["sack"] }]).map (·.1)).Nodup ∧
    ∀ p ∈ extract_items [{ names := ["sack"] }], p.2.id ≠ "" :=
  item_ids_unique [{ names := ["sack"] }] (by decide)

/-- Claim C3 (counterexample): the two distinct legacy keys `SACK` and
`Sack` normalize to the same id `sack`, and the output map built from both
objects is identical to the one built from the second object alone — the
first record is silently overwritten, and no inconsistency is reported
anywhere in the output. -/
theorem id_collision_silent_overwrite :
    ObjData.names { names := ["SACK"], description := "upper" } ≠
      ObjData.names { names := ["Sack"], description := "lower" } ∧
    (convert_to_item_json { names := ["SACK"], description := "upper" }).id =
      (convert_to_item_json { names := ["Sack"], description := "lower" }).id ∧
    extract_items [{ names := ["SACK"], description := "upper" },
                   { names := ["Sack"], description := "lower" }] =
      extract_items [{ names := ["Sack"], description := "lower" }] := by
  decide

/-- An open marker starts a new block, flushing a non-empty current block
first (also when already inside a block — there is no depth counter). -/
lemma splitBlocks_openMarker (rest cur : List Char) (acc : List (List Char)) (inb : Bool) :
    splitBlocks ('!' :: '[' :: rest) inb cur acc =
      splitBlocks rest true [] (if inb ∧ cur ≠ [] then acc ++ [cur] else acc) := by
  simp [splitBlocks]

/-- A close marker inside a block flushes the current block. -/
lemma splitBlocks_closeMarker (rest cur : List Char) (acc : List (List Char)) :
    splitBlocks ('!' :: ']' :: rest) true cur acc =
      splitBlocks rest false [] (acc ++ [cur]) := by
  simp [splitBlocks]

/-- Characters that are not part of any marker are appended to the current
block one by one while inside a block. -/
lemma splitBlocks_content :
    ∀ (cs : List Char), (∀ c ∈ cs, c ≠ '!' ∧ c ≠ ']') →
      ∀ (rest cur : List Char) (acc : List (List Char)),
        splitBlocks (cs ++ rest) true cur acc = splitBlocks rest true (cur ++ cs) acc := by
  intro cs
  induction cs with
  | nil => intro _ rest cur acc; simp
  | cons c cs ih =>
    intro h rest cur acc
    have hc : c ≠ '!' ∧ c ≠ ']' := h c (List.mem_cons_self c cs)
    have htail : ∀ x ∈ cs, x ≠ '!' ∧ x ≠ ']' := fun x hx => h x (List.mem_cons_of_mem c hx)
    rw [List.cons_append]
    cases hcr : cs ++ rest with
    | nil =>
      obtain ⟨hcs, hrest⟩ := List.append_eq_nil.mp hcr
      subst hcs; subst hrest
      simp [splitBlocks]
    | cons d ds =>
      have hstep : splitBlocks (c :: d :: ds) true cur acc =
          splitBlocks (d :: ds) true (cur ++ [c]) acc := by
        simp only [splitBlocks]
        rw [if_neg (by rintro ⟨hx, _⟩; exact hc.1 hx), if_pos trivial,
            if_neg (by rintro (⟨hx, _⟩ | ⟨hx, _⟩); exacts [hc.1 hx, hc.2 hx])]
      rw [hstep, ← hcr, ih htail rest (cur ++ [c]) acc, List.append_assoc]
      rfl

/-- Claim C1 (counterexample): the input `![a![b!]!]![c!]![d!]` contains
exactly three top-level balanced spans (`a![b!]`, `c` and `d` — the first
one has a nested block), but the tokenizer returns four blocks, because it
does no depth counting: the inner `![` flushes `a` and starts a new block,
and the span `a![b!]` is never produced. -/
theorem tokenizer_nested_counterexample :
    splitBlocks ("![a![b!]!]![c!]![d!]".toList) false [] [] =
      [['a'], ['b'], ['c'], ['d']] ∧
    ([['a'], ['b'], ['c'], ['d']] : List (List Char)).length ≠ 3 := by
  decide

/-- Claim C1 (amended): the tokenizer does not depth-count — an inner open
marker flushes the current block and starts a new one.  For an input of
three marker-bracketed blocks whose contents contain no marker characters,
it does return exactly the three contents in order. -/
theorem tokenizer_flat_three_blocks (b1 b2 b3 : List Char)
    (h1 : ∀ c ∈ b1, c ≠ '!' ∧ c ≠ ']')
    (h2 : ∀ c ∈ b2, c ≠ '!' ∧ c ≠ ']')
    (h3 : ∀ c ∈ b3, c ≠ '!' ∧ c ≠ ']') :
    splitBlocks
      ('!' :: '[' :: b1 ++ '!' :: ']' :: '!' :: '[' :: b2 ++ '!' :: ']' :: '!' :: '[' :: b3 ++ ['!', ']'])
      false [] [] = [b1, b2, b3] := by
  simp only [List.cons_append, List.append_assoc]
  rw [splitBlocks_openMarker, splitBlocks_content b1 h1, splitBlocks_closeMarker,
      splitBlocks_openMarker, splitBlocks_content b2 h2, splitBlocks_closeMarker,
      splitBlocks_openMarker, splitBlocks_content b3 h3, splitBlocks_closeMarker]
  simp [splitBlocks]

/-- Concrete instance for `tokenizer_flat_three_blocks`: tokenizing
`![a!]![b!]![c!]` yields the three blocks `a`, `b`, `c`. -/
theorem tokenizer_flat_three_blocks_witness :
    splitBlocks
      ('!' :: '[' :: ['a'] ++ '!' :: ']' :: '!' :: '[' :: ['b'] ++ '!' :: ']' :: '!' :: '[' :: ['c'] ++ ['!', ']'])
      false [] [] = [['a'], ['b'], ['c']] :=
  tokenizer_flat_three_blocks ['a'] ['b'] ['c'] (by decide) (by decide) (by decide)

/-- Claim C9: zipping the sub-blocks positionally against the fixed
seven-category sequence makes every category beyond the number of blocks an
empty message list (never an error), and blocks beyond the category count
are silently discarded — the result only depends on the first seven
blocks. -/
theorem melee_zip_categories (extract : List Char → List String)
    (blocks : List (List Char)) (i : Nat)
    (hlen : blocks.length ≤ i) (hcat : i < category_names.length) :
    (meleeMessages extract blocks)[i]? = some [] ∧
    meleeMessages extract blocks = meleeMessages extract (blocks.take category_names.length) := by
  constructor
  · unfold meleeMessages
    rw [List.getElem?_map]
    have hrange : (List.range category_names.length)[i]? = some i := by
      simp [List.getElem?_range, hcat]
    rw [hrange]
    have hnone : blocks[i]? = none := List.getElem?_eq_none hlen
    simp [hnone]
  · unfold meleeMessages
    apply List.map_congr_left
    intro idx hidx
    rw [List.mem_range] at hidx
    rw [List.map_take, List.getD_eq_getElem?_getD, List.getD_eq_getElem?_getD,
        List.getElem?_take_of_lt hidx]

/-- Concrete instance for `melee_zip_categories`: one sub-block, category
index 3 (`light_wound`) gets the empty list. -/
theorem melee_zip_categories_witness :
    (meleeMessages (fun _ => []) [['a']])[3]? = some [] ∧
    meleeMessages (fun _ => []) [['a']] =
      meleeMessages (fun _ => []) ([['a']].take category_names.length) :=
  melee_zip_categories (fun _ => []) [['a']] 3 (by decide) (by decide)

end ZorkExtractors
